import Mathlib

/-!
Shallow embedding of `Bluebird::CumulativeWriter<T>` (append-only fixed-record
binary store), translated from the repository source (the fuller revision,
POSIX branch; the second file is a near-identical earlier revision of the same
class).

Modelling conventions:
* A record of the opaque type `T` is a list of bytes of length
  `c_RecordSize = sizeof(T)`; bytes are `Nat`, bit-for-bit equality is list
  equality.
* The backing file is the byte list `file`; `tellg()` at open (stream opened
  with `ate`) is `file.length`.
* `unsigned int` arithmetic is `Nat` with an explicit `% 4294967296` wherever
  the C++ computation can truncate or wrap: the `static_cast<unsigned int>`
  of the file position in `CalculateRecordCount`, the `++m_RecordCount` in
  `Write`, the `m_RecordCount - 1` in `LoadLastRecord`, and the
  `p_RecordOffset * c_RecordSize` seek position in `ReadRecord`.
* Fallible steps that in the source throw (or fail) and are caught are given
  Boolean oracle parameters: `openOk` (stream construction), `sizeOk`
  (determining the size), `allocOk` (`new T()`), `readOk` (seek/read),
  `ioOk` (seek/write/flush); on a failed write the device may have appended
  a prefix of the record, of length given by the oracle `pLen`.
* The mutex makes every public call atomic; we model each call as one atomic
  state transition, so the lock itself needs no representation.
-/

/-- Operational status of the store, `CumulativeWriter::Status`. -/
inductive Status where
  | Unknown
  | FileNotFound
  | ReadyClosed
  | ReadyOpen
  | Writing
  | Reading
  | Closing
  | Closed
  | ErrorOpeningStream
  | ErrorWriting
  | ErrorWritingStreamNotReady
  | ErrorSeeking
  | ErrorReading
  | PossibleCorruption
  | UnableToCalculateRecords
  deriving DecidableEq, Repr

/-- Result code of a read, `CumulativeWriter::RecordReadStatus`. -/
inductive RecordReadStatus where
  | Unknown
  | OffsetOutOfRange
  | BadMemoryAlloc
  | StreamNotOpen
  | StreamReadError
  | Okay
  deriving DecidableEq, Repr

/-- Corruption verdict computed at open time, `CumulativeWriter::LoadState`. -/
inductive LoadState where
  | Unknown
  | Corrupt
  | Okay
  deriving DecidableEq, Repr

/-- Modulus of the C++ `unsigned int` (32-bit). -/
def UINT_MOD : Nat := 4294967296

/-- State of one `CumulativeWriter<T>` instance together with its backing
file. `recordSize` is the constant `c_RecordSize = sizeof(T)`,
`fileStreamValid` is `FileStreamValid()` (handle non-null), and `file` is the
byte content of the backing file. -/
structure Store where
  recordSize : Nat
  fileStreamValid : Bool
  status : Status
  prevStatus : Status
  loadState : LoadState
  recordCount : Nat
  file : List Nat
  deriving DecidableEq, Repr

/-- The `Closing()` accessor: true when status is `Closing` or `Closed`. -/
def Closing (s : Store) : Bool :=
  s.status == Status.Closing || s.status == Status.Closed

/-- `CalculateRecordCount`: on success reads the file position `l_fpos`
(= file size, stream opened at end), sets
`m_RecordCount = static_cast<unsigned int>(l_fpos) / c_RecordSize` (the cast
truncates to 32 bits) and sets the load state from `l_fpos % c_RecordSize`
computed on the untruncated position. On an exception (`sizeOk = false`) the
status becomes `UnableToCalculateRecords` and count/load state are untouched. -/
def CalculateRecordCount (s : Store) (sizeOk : Bool) : Store :=
  if s.fileStreamValid then
    if sizeOk then
      { s with
        recordCount := (s.file.length % UINT_MOD) / s.recordSize,
        loadState :=
          if s.file.length % s.recordSize = 0 then LoadState.Okay
          else LoadState.Corrupt }
    else { s with status := Status.UnableToCalculateRecords }
  else s

/-- `OpenFileStream`: if the handle is not yet valid, open/create the stream
(`openOk = false` models the constructor throwing), derive the record count,
and set status `ReadyOpen` unless counting failed. -/
def OpenFileStream (s : Store) (openOk sizeOk : Bool) : Store :=
  if s.fileStreamValid then s
  else if openOk then
    let s2 := CalculateRecordCount { s with fileStreamValid := true } sizeOk
    if s2.status ≠ Status.UnableToCalculateRecords then
      { s2 with status := Status.ReadyOpen }
    else s2
  else { s with status := Status.ErrorOpeningStream }

/-- The constructor `CumulativeWriter(p_Filename)`: fields initialised
(`m_Status = Unknown` is saved as `m_PrevStatus`, then set to `ReadyClosed`),
then `OpenFileStream()` runs. `file` is the current content of the backing
file at `p_Filename` and `R = sizeof(T)`. -/
def construct (R : Nat) (file : List Nat) (openOk sizeOk : Bool) : Store :=
  OpenFileStream
    { recordSize := R
      fileStreamValid := false
      status := Status.ReadyClosed
      prevStatus := Status.Unknown
      loadState := LoadState.Unknown
      recordCount := 0
      file := file }
    openOk sizeOk

/-- Semantics of `fstream::read` of `len` bytes at position `pos` into a
zero-initialised buffer of size `len`: the available bytes are copied and the
rest of the buffer keeps its zeros. -/
def readBytes (file : List Nat) (pos len : Nat) : List Nat :=
  let avail := (file.drop pos).take len
  avail ++ List.replicate (len - avail.length) 0

/-- `ReadRecord(p_RecordOffset)`. Faithful to the source's control flow:
handle validity is checked first (`StreamNotOpen`), then the bound
`p_RecordOffset < m_RecordCount` under the lock (`OffsetOutOfRange`, with the
local result pointer still null); in range, the previous status is saved,
status becomes `Reading`, a zeroed record is allocated (`BadMemoryAlloc` on
`bad_alloc`, pointer stays null, status stays `Reading`), then the stream
seeks to `p_RecordOffset * c_RecordSize` (unsigned 32-bit product) and reads
`c_RecordSize` bytes. On success the status is restored and the pair
`(Okay, buffer)` returned; if the seek/read throws the result code is
`StreamReadError` but the allocated buffer is still returned. -/
def ReadRecord (s : Store) (offset : Nat) (allocOk readOk : Bool) :
    (RecordReadStatus × Option (List Nat)) × Store :=
  if s.fileStreamValid then
    if offset < s.recordCount then
      let s1 := { s with prevStatus := s.status, status := Status.Reading }
      if allocOk then
        if readOk then
          let data := readBytes s.file ((offset * s.recordSize) % UINT_MOD) s.recordSize
          ((RecordReadStatus.Okay, some data), { s1 with status := s1.prevStatus })
        else
          ((RecordReadStatus.StreamReadError, some (List.replicate s.recordSize 0)),
            { s1 with status := Status.ErrorReading })
      else
        ((RecordReadStatus.BadMemoryAlloc, none), s1)
    else
      ((RecordReadStatus.OffsetOutOfRange, none), s)
  else
    ((RecordReadStatus.StreamNotOpen, none), s)

/-- `LoadLastRecord()` is literally `ReadRecord(m_RecordCount - 1)`; the
subtraction is on `unsigned int`, so on an empty store it wraps to
`4294967295`. -/
def LoadLastRecord (s : Store) (allocOk readOk : Bool) :
    (RecordReadStatus × Option (List Nat)) × Store :=
  ReadRecord s ((s.recordCount + (UINT_MOD - 1)) % UINT_MOD) allocOk readOk

/-- `Write(p_Record)`. If `Closing()` the call returns `false` at once with
no other effect. Otherwise (under the lock) the previous status is saved;
with an invalid handle the status becomes `ErrorWritingStreamNotReady` and
the call fails. With a valid handle the status becomes `Writing`, the stream
seeks to end and writes the `c_RecordSize` record bytes and syncs; on success
`++m_RecordCount` (32-bit wrap), status restored, `true`. If the I/O throws
(`ioOk = false`) the device may have appended the first `pLen` bytes of the
record, status becomes `ErrorWriting`, the count is untouched and the call
returns `false`. -/
def Write (s : Store) (record : List Nat) (ioOk : Bool) (pLen : Nat) :
    Bool × Store :=
  if Closing s then (false, s)
  else
    let s1 := { s with prevStatus := s.status }
    if s1.fileStreamValid then
      let s2 := { s1 with status := Status.Writing }
      if ioOk then
        (true,
          { s2 with
            file := s2.file ++ record
            recordCount := (s2.recordCount + 1) % UINT_MOD
            status := s2.prevStatus })
      else
        (false,
          { s2 with
            file := s2.file ++ record.take pLen
            status := Status.ErrorWriting })
    else
      (false, { s1 with status := Status.ErrorWritingStreamNotReady })

/-- `Close()`: sets status `Closing`, closes the handle if it is valid and
marks it invalid (exceptions from the close are swallowed), then sets status
`Closed`. -/
def Close (s : Store) : Store :=
  let s1 := { s with status := Status.Closing }
  let s2 :=
    if s1.fileStreamValid then { s1 with fileStreamValid := false } else s1
  { s2 with status := Status.Closed }

/-- One public call on the store, with its oracle inputs. -/
inductive Op where
  | write (record : List Nat) (ioOk : Bool) (pLen : Nat)
  | readRec (offset : Nat) (allocOk readOk : Bool)
  | readLast (allocOk readOk : Bool)
  | close
  deriving DecidableEq, Repr

/-- State transition of one call. -/
def exec (op : Op) (s : Store) : Store :=
  match op with
  | Op.write r io p => (Write s r io p).2
  | Op.readRec off a rd => (ReadRecord s off a rd).2
  | Op.readLast a rd => (LoadLastRecord s a rd).2
  | Op.close => Close s

/-- Run a sequence of calls. -/
def runOps (s : Store) : List Op → Store
  | [] => s
  | op :: ops => runOps (exec op s) ops

/-- Number of `Write` calls in the run that return `true`. -/
def succWrites (s : Store) : List Op → Nat
  | [] => 0
  | op :: ops =>
      (match op with
       | Op.write r io p => if (Write s r io p).1 then 1 else 0
       | _ => 0)
      + succWrites (exec op s) ops

/-- Every `Write` call in the run returns `false`. -/
def writeFails (s : Store) : List Op → Prop
  | [] => True
  | op :: ops =>
      (match op with
       | Op.write r io p => (Write s r io p).1 = false
       | _ => True)
      ∧ writeFails (exec op s) ops

/-! ## Helper lemmas -/

/-- A state with status `Closed` and an invalid handle, exactly what `Close`
always produces. -/
def ClosedState (s : Store) : Prop :=
  s.status = Status.Closed ∧ s.fileStreamValid = false

theorem closedState_close (s : Store) : ClosedState (Close s) := by
  cases h : s.fileStreamValid <;> simp [ClosedState, Close, h]

theorem write_of_closing (s : Store) (record : List Nat) (ioOk : Bool) (pLen : Nat)
    (h : s.status = Status.Closing ∨ s.status = Status.Closed) :
    Write s record ioOk pLen = (false, s) := by
  have hc : Closing s = true := by
    rcases h with h | h <;> simp [Closing, h]
  unfold Write
  rw [hc]
  simp

theorem closedState_exec {s : Store} (h : ClosedState s) (op : Op) :
    ClosedState (exec op s) := by
  obtain ⟨hst, hfs⟩ := h
  cases op with
  | write r io p =>
      have := write_of_closing s r io p (Or.inr hst)
      simp [exec, this, ClosedState, hst, hfs]
  | readRec off a rd =>
      simp [exec, ReadRecord, hfs, ClosedState, hst]
  | readLast a rd =>
      simp [exec, LoadLastRecord, ReadRecord, hfs, ClosedState, hst]
  | close => exact closedState_close s

theorem writeFails_of_closedState {s : Store} (h : ClosedState s)
    (ops : List Op) : writeFails s ops := by
  induction ops generalizing s with
  | nil => trivial
  | cons op ops ih =>
      refine ⟨?_, ih (closedState_exec h op)⟩
      cases op with
      | write r io p =>
          have := write_of_closing s r io p (Or.inr h.1)
          simp [this]
      | readRec off a rd => trivial
      | readLast a rd => trivial
      | close => trivial

theorem readRecord_file (s : Store) (offset : Nat) (allocOk readOk : Bool) :
    (ReadRecord s offset allocOk readOk).2.file = s.file := by
  unfold ReadRecord
  repeat' split
  all_goals rfl

theorem close_file (s : Store) : (Close s).file = s.file := by
  cases h : s.fileStreamValid <;> simp [Close, h]

theorem write_file_take (s : Store) (record : List Nat) (ioOk : Bool) (pLen : Nat) :
    (((Write s record ioOk pLen).2.file).take s.file.length) = s.file := by
  unfold Write
  cases hv : s.fileStreamValid <;> split_ifs <;> simp [hv]

/-! ## Claim theorems -/

/-- C3: for every open store and every `offset ≥ record_count`, `ReadRecord`
returns `OffsetOutOfRange` and no record (and changes nothing); this includes
the boundary `offset = record_count` and the empty store `record_count = 0`. -/
theorem c3_offset_bound (s : Store) (offset : Nat) (allocOk readOk : Bool)
    (hopen : s.fileStreamValid = true) (hge : s.recordCount ≤ offset) :
    ReadRecord s offset allocOk readOk
      = ((RecordReadStatus.OffsetOutOfRange, none), s) := by
  unfold ReadRecord
  simp [hopen, Nat.not_lt.mpr hge]

/-- Witness for C3 at a concrete empty store and `offset = 0 = record_count`. -/
theorem c3_offset_bound_witness :
    (construct 12 [] true true).fileStreamValid = true ∧
    (construct 12 [] true true).recordCount ≤ 0 ∧
    ReadRecord (construct 12 [] true true) 0 true true
      = ((RecordReadStatus.OffsetOutOfRange, none), construct 12 [] true true) :=
  ⟨by decide, by decide,
    c3_offset_bound (construct 12 [] true true) 0 true true (by decide) (by decide)⟩

/-- C5: `LoadLastRecord` is `ReadRecord (record_count - 1)` under the 32-bit
unsigned offset computation; for a nonempty store that is the ordinary
`record_count - 1`, and for an empty open store the wrapped offset
`4294967295` falls out of range, so the call returns `OffsetOutOfRange` with
no record and no crash or state change. -/
theorem c5_read_last (s : Store) (allocOk readOk : Bool)
    (hlt : s.recordCount < UINT_MOD) :
    (0 < s.recordCount →
      LoadLastRecord s allocOk readOk
        = ReadRecord s (s.recordCount - 1) allocOk readOk) ∧
    (s.recordCount = 0 → s.fileStreamValid = true →
      LoadLastRecord s allocOk readOk
        = ((RecordReadStatus.OffsetOutOfRange, none), s)) := by
  constructor
  · intro hpos
    unfold LoadLastRecord
    have h1 : s.recordCount + (UINT_MOD - 1) = UINT_MOD + (s.recordCount - 1) := by
      unfold UINT_MOD at *; omega
    have h2 : (s.recordCount + (UINT_MOD - 1)) % UINT_MOD = s.recordCount - 1 := by
      rw [h1, Nat.add_mod_left, Nat.mod_eq_of_lt (by unfold UINT_MOD at *; omega)]
    rw [h2]
  · intro h0 hopen
    unfold LoadLastRecord
    apply c3_offset_bound _ _ _ _ hopen
    rw [h0]
    exact Nat.zero_le _

/-- Witness for C5 on a concrete empty open store. -/
theorem c5_read_last_witness :
    (construct 2 [] true true).recordCount < UINT_MOD ∧
    (construct 2 [] true true).recordCount = 0 ∧
    LoadLastRecord (construct 2 [] true true) true true
      = ((RecordReadStatus.OffsetOutOfRange, none), construct 2 [] true true) :=
  ⟨by decide, by decide,
    (c5_read_last (construct 2 [] true true) true true (by decide)).2
      (by decide) (by decide)⟩

/-- C7: in any state whose status is `Closing` or `Closed`, `Write` returns
`false` immediately with no state change (so no I/O); and once the store has
been closed (the state `Close` produces), every `Write` in any subsequent
sequence of calls returns `false`. -/
theorem c7_closed_terminal :
    (∀ (s : Store) (record : List Nat) (ioOk : Bool) (pLen : Nat),
      s.status = Status.Closing ∨ s.status = Status.Closed →
      Write s record ioOk pLen = (false, s)) ∧
    (∀ (s : Store) (ops : List Op), writeFails (Close s) ops) :=
  ⟨write_of_closing,
   fun s ops => writeFails_of_closedState (closedState_close s) ops⟩

/-- Witness for C7: a concrete store in the `Closing` state rejects a write
unchanged, and after `Close` a concrete later write fails. -/
theorem c7_closed_terminal_witness :
    Write { recordSize := 12, fileStreamValid := true, status := Status.Closing,
            prevStatus := Status.ReadyOpen, loadState := LoadState.Okay,
            recordCount := 0, file := [] } [1, 2] true 0
      = (false,
          { recordSize := 12, fileStreamValid := true, status := Status.Closing,
            prevStatus := Status.ReadyOpen, loadState := LoadState.Okay,
            recordCount := 0, file := [] }) ∧
    writeFails (Close (construct 2 [] true true)) [Op.write [5, 6] true 0] :=
  ⟨c7_closed_terminal.1 _ [1, 2] true 0 (Or.inl rfl),
   c7_closed_terminal.2 (construct 2 [] true true) [Op.write [5, 6] true 0]⟩

/-- C8: a `Write` issued while the store is not closing/closed but the handle
is invalid returns `false` and sets the status to
`ErrorWritingStreamNotReady` (saving the previous status), with no other
change. -/
theorem c8_write_stream_not_ready (s : Store) (record : List Nat)
    (ioOk : Bool) (pLen : Nat)
    (hnc : Closing s = false) (hclosed : s.fileStreamValid = false) :
    Write s record ioOk pLen
      = (false,
          { s with prevStatus := s.status,
                   status := Status.ErrorWritingStreamNotReady }) := by
  unfold Write
  simp [hnc, hclosed]

/-- Witness for C8 on a store whose open failed (invalid handle, not
closing). -/
theorem c8_write_stream_not_ready_witness :
    Closing (construct 12 [] false true) = false ∧
    (construct 12 [] false true).fileStreamValid = false ∧
    Write (construct 12 [] false true) [1] true 0
      = (false,
          { construct 12 [] false true with
              prevStatus := (construct 12 [] false true).status,
              status := Status.ErrorWritingStreamNotReady }) :=
  ⟨by decide, by decide,
    c8_write_stream_not_ready (construct 12 [] false true) [1] true 0
      (by decide) (by decide)⟩

/-- C9: no operation rewrites or truncates the bytes that were in the file
when it started — the old content is always a prefix of the new content — and
a successful `Write` on an open, non-closing store appends exactly the record
at end-of-file. -/
theorem c9_append_only :
    (∀ (s : Store) (op : Op), ((exec op s).file).take s.file.length = s.file) ∧
    (∀ (s : Store) (record : List Nat) (pLen : Nat),
      Closing s = false → s.fileStreamValid = true →
      (Write s record true pLen).2.file = s.file ++ record) := by
  constructor
  · intro s op
    cases op with
    | write r io p => exact write_file_take s r io p
    | readRec off a rd => rw [exec, readRecord_file]; exact List.take_length _
    | readLast a rd =>
        rw [exec, LoadLastRecord, readRecord_file]; exact List.take_length _
    | close => rw [exec, close_file]; exact List.take_length _
  · intro s record pLen hnc hopen
    unfold Write
    simp [hnc, hopen]

/-- Witness for C9: concrete append via `exec` and via a successful
`Write`. -/
theorem c9_append_only_witness :
    ((exec (Op.write [1, 2] true 0) (construct 2 [3, 4] true true)).file).take
        (construct 2 [3, 4] true true).file.length
      = (construct 2 [3, 4] true true).file ∧
    (Write (construct 2 [3, 4] true true) [1, 2] true 0).2.file
      = (construct 2 [3, 4] true true).file ++ [1, 2] :=
  ⟨c9_append_only.1 (construct 2 [3, 4] true true) (Op.write [1, 2] true 0),
   c9_append_only.2 (construct 2 [3, 4] true true) [1, 2] 0
     (by decide) (by decide)⟩

/-- C10: `Close` is idempotent — after a call the status is `Closed` and the
handle is invalid (so a second call does not attempt to re-close it), and a
second call produces exactly the same state with no error. -/
theorem c10_close_idempotent (s : Store) :
    (Close s).status = Status.Closed ∧
    (Close s).fileStreamValid = false ∧
    Close (Close s) = Close s := by
  refine ⟨?_, ?_, ?_⟩ <;> cases h : s.fileStreamValid <;> simp [Close, h]

/-- A successful open of a file of content `file` with record size `R`
produces exactly this state: count is the 32-bit-truncated size divided by
`R`, load state from the untruncated remainder, status `ReadyOpen`. -/
theorem construct_ok (R : Nat) (file : List Nat) :
    construct R file true true =
      { recordSize := R
        fileStreamValid := true
        status := Status.ReadyOpen
        prevStatus := Status.Unknown
        loadState :=
          if file.length % R = 0 then LoadState.Okay else LoadState.Corrupt
        recordCount := (file.length % UINT_MOD) / R
        file := file } := by
  unfold construct OpenFileStream CalculateRecordCount
  simp

/-- C2 counterexample: on a backing file of exactly `2^32` bytes with
`R = 12`, the `static_cast<unsigned int>` of the file position in
`CalculateRecordCount` truncates the size to `0`, so `record_count` is `0`,
not `fsize / R = 357913941` as the claim requires. -/
theorem c2_counterexample :
    (construct 12 (List.replicate UINT_MOD 0) true true).recordCount = 0 ∧
    (List.replicate UINT_MOD (0 : Nat)).length / 12 = 357913941 ∧
    (0 : Nat) ≠ 357913941 := by
  refine ⟨?_, ?_, by decide⟩
  · rw [construct_ok, List.length_replicate]
    show UINT_MOD % UINT_MOD / 12 = 0
    rw [Nat.mod_self, Nat.zero_div]
  · rw [List.length_replicate]
    decide

/-- C2 amended: construction sets
`record_count = (fsize mod 2^32) / R` (the file position is first truncated
to `unsigned int`) and `load_state` to `Okay` iff `fsize mod R = 0` (computed
untruncated); for a file of length `q*R + m` with `0 < m < R` the load state
is `Corrupt`, and `record_count = q` provided `fsize < 2^32` — for
`fsize < 2^32` this coincides with the original claim. -/
theorem c2_load_amended (R : Nat) (file : List Nat) (hR : 0 < R) :
    (construct R file true true).recordCount = (file.length % UINT_MOD) / R ∧
    (construct R file true true).loadState
      = (if file.length % R = 0 then LoadState.Okay else LoadState.Corrupt) ∧
    (∀ q m, file.length = q * R + m → 0 < m → m < R →
      (construct R file true true).loadState = LoadState.Corrupt ∧
      (file.length < UINT_MOD →
        (construct R file true true).recordCount = q)) := by
  rw [construct_ok]
  refine ⟨rfl, rfl, ?_⟩
  intro q m hq hm hmR
  have hrem : file.length % R = m := by
    rw [hq, Nat.mul_comm q R, Nat.mul_add_mod, Nat.mod_eq_of_lt hmR]
  constructor
  · show (if file.length % R = 0 then LoadState.Okay else LoadState.Corrupt)
        = LoadState.Corrupt
    rw [hrem]
    have hm0 : m ≠ 0 := by omega
    simp [hm0]
  · intro hlt
    show file.length % UINT_MOD / R = q
    rw [Nat.mod_eq_of_lt hlt, hq, Nat.mul_comm q R, Nat.mul_add_div hR,
      Nat.div_eq_of_lt hmR, Nat.add_zero]

/-- Witness for the amended C2: a concrete 25-byte file with `R = 12` loads
as `Corrupt` with two complete records. -/
theorem c2_load_witness :
    (construct 12 (List.replicate 25 9) true true).recordCount = 2 ∧
    (construct 12 (List.replicate 25 9) true true).loadState
      = LoadState.Corrupt :=
  ⟨by
    have h := (c2_load_amended 12 (List.replicate 25 9) (by decide)).2.2
      2 1 (by decide) (by decide) (by decide)
    exact h.2 (by decide),
   by
    have h := (c2_load_amended 12 (List.replicate 25 9) (by decide)).2.2
      2 1 (by decide) (by decide) (by decide)
    exact h.1⟩

theorem write_count_of_false {s : Store} {r : List Nat} {io : Bool} {p : Nat}
    (h : (Write s r io p).1 = false) :
    (Write s r io p).2.recordCount = s.recordCount := by
  unfold Write at h ⊢
  cases hv : s.fileStreamValid <;> split_ifs at h ⊢ <;> simp_all

theorem write_count_of_true {s : Store} {r : List Nat} {io : Bool} {p : Nat}
    (h : (Write s r io p).1 = true) :
    (Write s r io p).2.recordCount = (s.recordCount + 1) % UINT_MOD := by
  unfold Write at h ⊢
  cases hv : s.fileStreamValid <;> split_ifs at h ⊢ <;> simp_all

theorem readRecord_recordCount (s : Store) (offset : Nat) (a rd : Bool) :
    (ReadRecord s offset a rd).2.recordCount = s.recordCount := by
  unfold ReadRecord
  repeat' split
  all_goals rfl

theorem close_recordCount (s : Store) : (Close s).recordCount = s.recordCount := by
  cases h : s.fileStreamValid <;> simp [Close, h]

/-- One call changes the count by `+1 mod 2^32` exactly when it is a
successful write, and leaves it unchanged otherwise. -/
theorem exec_recordCount (op : Op) (s : Store) :
    (exec op s).recordCount
      = (match op with
         | Op.write r io p =>
             if (Write s r io p).1 then (s.recordCount + 1) % UINT_MOD
             else s.recordCount
         | _ => s.recordCount) := by
  cases op with
  | write r io p =>
      cases hw : (Write s r io p).1 with
      | false => simp [exec, write_count_of_false hw, hw]
      | true => simp [exec, write_count_of_true hw, hw]
  | readRec off a rd => exact readRecord_recordCount s off a rd
  | readLast a rd => exact readRecord_recordCount s _ a rd
  | close => exact close_recordCount s

theorem exec_recordCount_lt {s : Store} (h : s.recordCount < UINT_MOD)
    (op : Op) : (exec op s).recordCount < UINT_MOD := by
  rw [exec_recordCount]
  have hM : 0 < UINT_MOD := by decide
  cases op with
  | write r io p =>
      cases hw : (Write s r io p).1 <;> simp [hw, Nat.mod_lt _ hM, h]
  | readRec off a rd => exact h
  | readLast a rd => exact h
  | close => exact h

/-- C4 counterexample: the counter is a C `unsigned int`, so from the
reachable state `record_count = 4294967295` (a one-byte record type and a
backing file of `2^32 - 1` bytes; the file content is irrelevant to the
counter update) one successful write wraps the count to `0`, not to
`4294967295 + 1`, so the count is also decremented by that write. -/
theorem c4_counterexample :
    (Write { recordSize := 1, fileStreamValid := true,
             status := Status.ReadyOpen, prevStatus := Status.ReadyOpen,
             loadState := LoadState.Okay, recordCount := 4294967295,
             file := [] } [7] true 0).1 = true ∧
    (Write { recordSize := 1, fileStreamValid := true,
             status := Status.ReadyOpen, prevStatus := Status.ReadyOpen,
             loadState := LoadState.Okay, recordCount := 4294967295,
             file := [] } [7] true 0).2.recordCount = 0 ∧
    (0 : Nat) ≠ 4294967295 + 1 :=
  ⟨by decide, by decide, by decide⟩

/-- C4 amended: after any sequence of calls containing `k` successful writes,
`record_count` equals `(before + k) mod 2^32` (so `before + k` whenever that
sum stays below `2^32`); every `Write` returning `false` leaves the count
unchanged, and no operation other than a successful write changes it (a
successful write at `2^32 - 1` wraps to `0`, the one decrementing case). -/
theorem c4_count_amended :
    (∀ (s : Store) (ops : List Op), s.recordCount < UINT_MOD →
      (runOps s ops).recordCount
        = (s.recordCount + succWrites s ops) % UINT_MOD) ∧
    (∀ (s : Store) (r : List Nat) (io : Bool) (p : Nat),
      (Write s r io p).1 = false →
      (Write s r io p).2.recordCount = s.recordCount) := by
  constructor
  · intro s ops
    induction ops generalizing s with
    | nil =>
        intro h
        simp [runOps, succWrites, Nat.mod_eq_of_lt h]
    | cons op ops ih =>
        intro h
        cases op with
        | write r io p =>
            rw [runOps, succWrites,
              ih (exec (Op.write r io p) s)
                (exec_recordCount_lt h (Op.write r io p)),
              exec_recordCount]
            cases hw : (Write s r io p).1 with
            | false => simp [hw]
            | true =>
                simp only [hw, if_true]
                rw [Nat.mod_add_mod, Nat.add_assoc]
        | readRec off a rd =>
            rw [runOps, succWrites,
              ih (exec (Op.readRec off a rd) s)
                (exec_recordCount_lt h (Op.readRec off a rd)),
              exec_recordCount]
            · simp
            · exact fun r io p hco => Op.noConfusion hco
        | readLast a rd =>
            rw [runOps, succWrites,
              ih (exec (Op.readLast a rd) s)
                (exec_recordCount_lt h (Op.readLast a rd)),
              exec_recordCount]
            · simp
            · exact fun r io p hco => Op.noConfusion hco
        | close =>
            rw [runOps, succWrites,
              ih (exec Op.close s) (exec_recordCount_lt h Op.close),
              exec_recordCount]
            · simp
            · exact fun r io p hco => Op.noConfusion hco
  · intro s r io p h
    exact write_count_of_false h

/-- Witness for the amended C4: two successful writes and a failed one on a
fresh store yield count `2`; the failed write leaves the count of the fresh
store at `0`. -/
theorem c4_count_witness :
    (runOps (construct 2 [] true true)
        [Op.write [1, 2] true 0, Op.write [3, 4] false 1,
         Op.write [5, 6] true 0]).recordCount
      = ((construct 2 [] true true).recordCount
          + succWrites (construct 2 [] true true)
              [Op.write [1, 2] true 0, Op.write [3, 4] false 1,
               Op.write [5, 6] true 0]) % UINT_MOD ∧
    (Write (construct 2 [] true true) [3, 4] false 1).2.recordCount
      = (construct 2 [] true true).recordCount :=
  ⟨c4_count_amended.1 (construct 2 [] true true) _ (by decide),
   c4_count_amended.2 (construct 2 [] true true) [3, 4] false 1 (by decide)⟩

/-- C6 counterexample: on the seek/read-failure path the result code is
`StreamReadError`, but the pair still carries the record buffer allocated
before the failure (in the source the local shared pointer is never reset),
so a record IS returned with a non-`Okay` status. -/
theorem c6_counterexample :
    (ReadRecord (construct 12 (List.replicate 12 3) true true) 0 true false).1.1
      = RecordReadStatus.StreamReadError ∧
    (ReadRecord (construct 12 (List.replicate 12 3) true true) 0 true false).1.2
      ≠ none :=
  ⟨by decide, by decide⟩

/-- C6 amended: for the statuses `OffsetOutOfRange`, `BadMemoryAlloc` and
`StreamNotOpen` no record is returned; for `StreamReadError` the allocated
zero-initialised buffer of `record_size` bytes is returned alongside the
error status. -/
theorem c6_no_record_amended (s : Store) (offset : Nat) (allocOk readOk : Bool) :
    (((ReadRecord s offset allocOk readOk).1.1 = RecordReadStatus.OffsetOutOfRange ∨
      (ReadRecord s offset allocOk readOk).1.1 = RecordReadStatus.BadMemoryAlloc ∨
      (ReadRecord s offset allocOk readOk).1.1 = RecordReadStatus.StreamNotOpen) →
      (ReadRecord s offset allocOk readOk).1.2 = none) ∧
    ((ReadRecord s offset allocOk readOk).1.1 = RecordReadStatus.StreamReadError →
      (ReadRecord s offset allocOk readOk).1.2
        = some (List.replicate s.recordSize 0)) := by
  unfold ReadRecord
  repeat' split
  all_goals simp

/-- Witness for the amended C6: a store whose open failed reads back
`StreamNotOpen` with no record. -/
theorem c6_no_record_witness :
    (ReadRecord (construct 2 [] false true) 0 true true).1.2 = none :=
  (c6_no_record_amended (construct 2 [] false true) 0 true true).1
    (Or.inr (Or.inr (by decide)))

theorem readBytes_append (a b : List Nat) :
    readBytes (a ++ b) a.length b.length = b := by
  unfold readBytes
  rw [List.drop_left, List.take_length]
  simp

/-- C1 counterexample: the round-trip fails on a store opened over a corrupt
file. Open a 1-byte file with `R = 12` (so `record_count = 0`, load state
`Corrupt`), successfully write the record `[1..12]`; the count becomes
`n = 1`, but `read(n-1) = read(0)` returns `Okay` with the bytes at file
offset `0..11` — the stray byte followed by the first 11 record bytes — not
the record that was written. -/
theorem c1_counterexample :
    (Write (construct 12 [0] true true)
        [1, 2, 3, 4, 5, 6, 7, 8, 9, 10, 11, 12] true 0).1 = true ∧
    (Write (construct 12 [0] true true)
        [1, 2, 3, 4, 5, 6, 7, 8, 9, 10, 11, 12] true 0).2.recordCount = 1 ∧
    (ReadRecord (Write (construct 12 [0] true true)
        [1, 2, 3, 4, 5, 6, 7, 8, 9, 10, 11, 12] true 0).2 0 true true).1.1
      = RecordReadStatus.Okay ∧
    (ReadRecord (Write (construct 12 [0] true true)
        [1, 2, 3, 4, 5, 6, 7, 8, 9, 10, 11, 12] true 0).2 0 true true).1.2
      ≠ some [1, 2, 3, 4, 5, 6, 7, 8, 9, 10, 11, 12] :=
  ⟨by decide, by decide, by decide, by decide⟩

/-- C1 amended: the round-trip holds provided the store is open and not
closing, its file holds exactly `record_count` whole records (no partial
tail, i.e. `file size = record_count * R` — in particular not a
corrupt-at-load file), the record has exactly `R` bytes, and the 32-bit
quantities do not wrap (`record_count + 1 < 2^32` and
`record_count * R < 2^32`): then the write succeeds, `n = record_count + 1`,
and `read(n-1)` (with the allocation and the read succeeding) returns `Okay`
with a record bit-for-bit equal to the one written. -/
theorem c1_roundtrip_amended (s : Store) (r : List Nat)
    (hopen : s.fileStreamValid = true)
    (hnc : Closing s = false)
    (hlen : s.file.length = s.recordCount * s.recordSize)
    (hr : r.length = s.recordSize)
    (hcnt : s.recordCount + 1 < UINT_MOD)
    (hsz : s.recordCount * s.recordSize < UINT_MOD) :
    (Write s r true 0).1 = true ∧
    (Write s r true 0).2.recordCount = s.recordCount + 1 ∧
    (ReadRecord (Write s r true 0).2 ((Write s r true 0).2.recordCount - 1)
        true true).1
      = (RecordReadStatus.Okay, some r) := by
  have hw : Write s r true 0
      = (true,
          { s with prevStatus := s.status,
                   recordCount := (s.recordCount + 1) % UINT_MOD,
                   file := s.file ++ r }) := by
    unfold Write
    simp [hnc, hopen]
  rw [hw]
  have hmod : (s.recordCount + 1) % UINT_MOD = s.recordCount + 1 :=
    Nat.mod_eq_of_lt hcnt
  refine ⟨rfl, hmod, ?_⟩
  unfold ReadRecord
  rw [hmod]
  simp only [Nat.add_sub_cancel]
  have hlt : s.recordCount < s.recordCount + 1 := Nat.lt_succ_self _
  simp only [hopen, if_true, hlt]
  have hpos : s.recordCount * s.recordSize % UINT_MOD
      = s.recordCount * s.recordSize := Nat.mod_eq_of_lt hsz
  simp only [hpos, if_pos hlt]
  have hread : readBytes (s.file ++ r) (s.recordCount * s.recordSize)
      s.recordSize = r := by
    rw [← hlen, ← hr, readBytes_append]
  rw [hread]

/-- Witness for the amended C1 on a fresh empty store with `R = 2`. -/
theorem c1_roundtrip_witness :
    (Write (construct 2 [] true true) [7, 8] true 0).1 = true ∧
    (ReadRecord (Write (construct 2 [] true true) [7, 8] true 0).2
        ((Write (construct 2 [] true true) [7, 8] true 0).2.recordCount - 1)
        true true).1
      = (RecordReadStatus.Okay, some [7, 8]) :=
  ⟨(c1_roundtrip_amended (construct 2 [] true true) [7, 8] (by decide)
      (by decide) (by decide) (by decide) (by decide) (by decide)).1,
   (c1_roundtrip_amended (construct 2 [] true true) [7, 8] (by decide)
      (by decide) (by decide) (by decide) (by decide) (by decide)).2.2⟩
